import Mathlib

/-!
Verification of the AcornSnipe Duo two-factor authentication client.

The development shallowly embeds the Python sources (`duo/client.py`,
`duo/parser.py`, `duo/duo_auth.py`, `duo/saml.py`) as executable Lean
functions.  Network I/O is replaced by a scripted transport: the `i`-th HTTP
request receives `script i`, which is either a response object or a raised
exception.  Wall-clock time for the polling loop is a list of rational
instants at which the loop observes the clock.  Python exceptions are an
explicit `Except` layer; Python `print` diagnostics are an explicit log.
-/

namespace AcornSnipe

/-- Strings are lists of characters throughout the model. -/
abbrev Str := List Char

/-! ## Literal string matching (model of the two `re.search` calls) -/

/-- `matchesAt pat l` holds when `pat` occurs as a prefix of `l` —
an anchored literal match. -/
def matchesAt : Str → Str → Bool
  | [], _ => true
  | _ :: _, [] => false
  | p :: ps, c :: cs => if p = c then matchesAt ps cs else false

/-- `endsWith suf l` : does `l` end with `suf`? -/
def endsWith (suf l : Str) : Bool :=
  matchesAt suf (l.drop (l.length - suf.length))

def sidPat : Str := "sid=".toList

/-- Model of `re.search('sid=([^&]+)', url)` (client.py line 106): scan left
to right for the literal `sid=`; at the first position where it matches and at
least one non-`&` character follows, capture the maximal run of non-`&`
characters.  A position where the capture would be empty is skipped, exactly
as the regex engine backtracks past it. -/
def sidCapture : Str → Option Str
  | [] => none
  | c :: rest =>
    if matchesAt sidPat (c :: rest) then
      let cap := ((c :: rest).drop 4).takeWhile (fun ch => ch ≠ '&')
      if cap.isEmpty then sidCapture rest else some cap
    else sidCapture rest

def duoSuffix : Str := ".duosecurity.com".toList

def httpsPat : Str := "https://".toList

/-- Longest prefix of `run` of length at most `k` that ends in
`.duosecurity.com` with at least one character before the suffix (the greedy
`[^/]+` part of the pattern, backtracked just enough for the literal tail). -/
def greedyDuoCapture (run : Str) : Nat → Option Str
  | 0 => none
  | k + 1 =>
    if endsWith duoSuffix (run.take (k + 1)) = true ∧
        duoSuffix.length + 1 ≤ k + 1 ∧ k + 1 ≤ run.length then
      some (run.take (k + 1))
    else greedyDuoCapture run k

/-- Model of `re.search(r'https://([^/]+\.duosecurity\.com)', url)`
(client.py line 114): at each position try the literal `https://` followed by
a maximal run of non-`/` characters; the capture is the longest prefix of that
run ending in `.duosecurity.com`; when no capture exists at this position the
scan moves one character to the right. -/
def duoHostSearch : Str → Option Str
  | [] => none
  | c :: rest =>
    if matchesAt httpsPat (c :: rest) then
      let run := ((c :: rest).drop 8).takeWhile (fun ch => ch ≠ '/')
      match greedyDuoCapture run run.length with
      | some h => some h
      | none => duoHostSearch rest
    else duoHostSearch rest

/-! ## HTML documents and `duo/parser.py` -/

/-- One HTML element as BeautifulSoup exposes it: a tag name and its
attribute list.  A parsed document is its elements in document order;
`soup.find(tag, attrs)` is the first match in that order.  (`Tag.__bool__`
is constantly `True` in bs4, so only `find` returning `None` is falsy.) -/
structure Element where
  tag : Str
  attrs : List (Str × Str)
deriving DecidableEq

/-- Attribute lookup; `none` models the attribute being absent, in which case
Python's `elem[attr]` raises `KeyError`. -/
def getAttr (e : Element) (a : Str) : Option Str :=
  (e.attrs.find? (fun p => decide (p.1 = a))).map Prod.snd

/-- `soup.find(tag, attrs)`: first element with this tag whose attribute `a`
equals `v`. -/
def findElem (doc : List Element) (tag a v : Str) : Option Element :=
  doc.find? (fun e => decide (e.tag = tag) && decide (getAttr e a = some v))

/-- The Python exceptions the model distinguishes. -/
inductive PyExc where
  | connErr
  | jsonErr
  | keyErr (key : Str)
  | attrErr
  | typeErr
deriving DecidableEq

/-- `parser.extract_csrf_and_action` (parser.py lines 5-17).  The outer
`Except` is a Python exception escaping the function: `csrf_elem['value']`,
then `form_elem['action']`, raise `KeyError` when the found element lacks the
attribute.  `.ok none` is the `return None` path. -/
def extract_csrf_and_action (doc : List Element) :
    Except PyExc (Option (Str × Str)) :=
  match findElem doc "input".toList "name".toList "csrf_token".toList,
        findElem doc "form".toList "method".toList "post".toList with
  | some csrf, some form =>
    match getAttr csrf "value".toList with
    | none => .error (.keyErr "value".toList)
    | some v =>
      match getAttr form "action".toList with
      | none => .error (.keyErr "action".toList)
      | some a => .ok (some (v, a))
  | _, _ => .ok none

/-- `parser.extract_duo_tokens` (parser.py lines 20-34); same raising
behaviour, attribute reads in dict-literal order `tx`, `_xsrf`, `akey`. -/
def extract_duo_tokens (doc : List Element) :
    Except PyExc (Option (Str × Str × Str)) :=
  match findElem doc "input".toList "name".toList "tx".toList,
        findElem doc "input".toList "name".toList "_xsrf".toList,
        findElem doc "input".toList "name".toList "akey".toList with
  | some tx, some xsrf, some akey =>
    match getAttr tx "value".toList with
    | none => .error (.keyErr "value".toList)
    | some vtx =>
      match getAttr xsrf "value".toList with
      | none => .error (.keyErr "value".toList)
      | some vx =>
        match getAttr akey "value".toList with
        | none => .error (.keyErr "value".toList)
        | some va => .ok (some (vtx, vx, va))
  | _, _, _ => .ok none

/-- `parser.extract_saml_response` (parser.py lines 37-41). -/
def extract_saml_response (doc : List Element) : Except PyExc (Option Str) :=
  match findElem doc "input".toList "name".toList "SAMLResponse".toList with
  | none => .ok none
  | some e =>
    match getAttr e "value".toList with
    | none => .error (.keyErr "value".toList)
    | some v => .ok (some v)

/-! ## JSON values -/

/-- JSON values as the client consumes them: strings and objects suffice for
every field the code reads. -/
inductive JVal where
  | s (v : Str)
  | o (fields : List (Str × JVal))

/-- Python `j == tgt` for a string literal `tgt`: true exactly when `j` is
that string (a dict compares unequal to any string). -/
def jIsStr (j : JVal) (tgt : Str) : Bool :=
  match j with
  | .s v => decide (v = tgt)
  | .o _ => false

/-- Python `x == 'OK'` where `x` came from `.get('stat')`: `None` and
non-string values compare unequal. -/
def optIsOK (x : Option JVal) : Bool :=
  match x with
  | some j => jIsStr j "OK".toList
  | none => false

/-- `data.get(k)` — raises `AttributeError` when `data` is not a dict. -/
def jGetE (j : JVal) (k : Str) : Except PyExc (Option JVal) :=
  match j with
  | .s _ => .error .attrErr
  | .o fs => .ok ((fs.find? (fun p => decide (p.1 = k))).map Prod.snd)

/-- `data[k]` — raises `TypeError` on a non-dict and `KeyError` on a missing
key. -/
def jIndexE (j : JVal) (k : Str) : Except PyExc JVal :=
  match j with
  | .s _ => .error .typeErr
  | .o fs =>
    match (fs.find? (fun p => decide (p.1 = k))).map Prod.snd with
    | none => .error (.keyErr k)
    | some v => .ok v

/-! ## Scripted transport, request trace and diagnostic log -/

/-- A scripted HTTP response: final status code and URL after redirects, the
body as parsed HTML (what `.text` feeds to BeautifulSoup), and the result of
`.json()`, which may itself raise. -/
structure HttpResp where
  status_code : Nat
  url : Str
  doc : List Element
  json : Except PyExc JVal

/-- The kinds of HTTP request the client can issue, in the code's vocabulary:
the entry-page GET, the credentials POST, the Duo frame-initialization POST,
the three provider-transport POSTs of `duo_auth.py`, the SAML assertion POST
of `saml.py`, and `access_service`'s GET. -/
inductive ReqKind where
  | entryGet
  | credsPost
  | frameInitPost
  | duoPrompt
  | duoStatus
  | duoExit
  | samlPost
  | serviceGet
deriving DecidableEq

/-- One issued request: its kind and target URL. -/
structure Req where
  kind : ReqKind
  url : Str
deriving DecidableEq

/-- The diagnostic messages the client prints, one constructor per `print`
call site in `client.py`. -/
inductive LogMsg where
  | initialUrlFailed (status : Nat)
  | missingFormElements
  | missingSid
  | missingDuoParams
  | passcodeRequired
  | duoPromptFailed (status : Nat)
  | duoAuthFailedStat
  | duoStatOk
  | statusPollFailed (status : Nat)
  | statusPollError
  | approved
  | denied
  | waiting
  | unknownStatus
  | timedOut
  | samlMissing
  | samlFailed (status : Nat)
  | authFailedExc (e : PyExc)
deriving DecidableEq

/-- The observable side of a run: the scripted transport (`script i` answers
the `i`-th request overall), the index of the next response, the requests
issued so far in order, and the diagnostics printed so far. -/
structure Run where
  script : Nat → Except PyExc HttpResp
  nextIdx : Nat
  trace : List Req
  log : List LogMsg

/-- Issue one HTTP request: record it and consume the next scripted
response (a `.error` is the call raising, e.g. a connection error). -/
def httpCall (k : ReqKind) (u : Str) (r : Run) : Run × Except PyExc HttpResp :=
  ({ r with nextIdx := r.nextIdx + 1, trace := r.trace ++ [⟨k, u⟩] },
   r.script r.nextIdx)

/-- Python `print(...)`: append one diagnostic. -/
def logPush (m : LogMsg) (r : Run) : Run :=
  { r with log := r.log ++ [m] }

/-! ## Client state (`DuoClient.__init__`) and configuration -/

/-- The mutable fields of `DuoClient` (client.py lines 11-29); the
`requests.Session` itself is represented by the `Run` threading. -/
structure St where
  username : Str
  password : Str
  url : Str
  saml_url : Str
  duo_host : Option Str
  sid : Option Str
  tx : Option Str
  txid : Option JVal
  xsrf : Option Str
  akey : Option Str

/-- `DuoClient.__init__(username, password)`. -/
def mkClient (username password : Str) : St :=
  { username := username
    password := password
    url := "https://acorn.utoronto.ca/".toList
    saml_url := "spACS".toList
    duo_host := none
    sid := none
    tx := none
    txid := none
    xsrf := none
    akey := none }

/-- `DuoClient.set_service` (client.py lines 260-269). -/
def set_service (c : St) (u su : Str) : St :=
  { c with url := u, saml_url := su }

/-- `DuoClient.access_service` (client.py lines 271-278). -/
def access_service (c : St) (r : Run) : Run × Except PyExc HttpResp :=
  httpCall .serviceGet c.url r

/-- The hardcoded fallback Duo host of client.py line 119. -/
def fallbackHost : Str := "api-832cdf07.duosecurity.com".toList

def idpBase : Str := "https://idpz.utorauth.utoronto.ca".toList

/-- The f-string `https://{host}/frame/v4/<path>` of duo_auth.py; a `None`
host renders as the text `None`, as Python's formatting does. -/
def duoUrl (c : St) (path : Str) : Str :=
  "https://".toList ++ c.duo_host.getD "None".toList ++ "/frame/v4/".toList ++ path

/-! ## `_initial_login` (client.py lines 74-143) -/

/-- `DuoClient._initial_login`, with each network response drawn from the
script.  Returns the transport state and either a raised exception or the
boolean result paired with the updated client.  Note the credentials POST and
the frame-initialization POST never have their status codes checked. -/
def initial_login (c : St) (r : Run) : Run × Except PyExc (Bool × St) :=
  let rx := httpCall .entryGet c.url r
  match rx.2 with
  | .error e => (rx.1, .error e)
  | .ok resp =>
    if resp.status_code ≠ 200 then
      (logPush (.initialUrlFailed resp.status_code) rx.1, .ok (false, c))
    else
      match extract_csrf_and_action resp.doc with
      | .error e => (rx.1, .error e)
      | .ok none => (logPush .missingFormElements rx.1, .ok (false, c))
      | .ok (some (_csrf, action)) =>
        let rx2 := httpCall .credsPost (idpBase ++ action) rx.1
        match rx2.2 with
        | .error e => (rx2.1, .error e)
        | .ok resp2 =>
          match sidCapture resp2.url with
          | none => (logPush .missingSid rx2.1, .ok (false, c))
          | some sid =>
            let c2 : St :=
              { c with
                sid := some sid
                duo_host := some ((duoHostSearch resp2.url).getD fallbackHost) }
            match extract_duo_tokens resp2.doc with
            | .error e => (rx2.1, .error e)
            | .ok none => (logPush .missingDuoParams rx2.1, .ok (false, c2))
            | .ok (some (tx, xsrf, akey)) =>
              let c3 : St :=
                { c2 with tx := some tx, xsrf := some xsrf, akey := some akey }
              let rx3 := httpCall .frameInitPost resp2.url rx2.1
              match rx3.2 with
              | .error e => (rx3.1, .error e)
              | .ok _ => (rx3.1, .ok (true, c3))

/-! ## `_poll_duo_status` (client.py lines 190-232) -/

/-- Result of one polling run: final transport state, the instants at which
status requests were issued, and the outcome (`.error` = an exception
escaping the loop). -/
structure PollRes where
  run : Run
  times : List ℚ
  res : Except PyExc Bool

/-- What the loop body does with one status response (client.py lines
205-229): raise, leave the loop with a logged decision, or log and keep
polling. -/
inductive StepRes where
  | raise (e : PyExc)
  | terminal (m : LogMsg) (b : Bool)
  | again (m : LogMsg)
deriving DecidableEq

/-- Classify one scripted status response exactly as the loop body does:
non-200 and non-`"OK"` are terminal failures; the `status_code` field is read
with raising indexing; `allow`/`deny` are terminal; `pushed` and anything
unrecognized keep polling. -/
def pollStep : Except PyExc HttpResp → StepRes
  | .error e => .raise e
  | .ok resp =>
    if resp.status_code ≠ 200 then .terminal (.statusPollFailed resp.status_code) false
    else
      match resp.json with
      | .error e => .raise e
      | .ok data =>
        match jGetE data "stat".toList with
        | .error e => .raise e
        | .ok stat =>
          if ¬ optIsOK stat then .terminal .statusPollError false
          else
            match jIndexE data "response".toList with
            | .error e => .raise e
            | .ok respObj =>
              match jIndexE respObj "status_code".toList with
              | .error e => .raise e
              | .ok sc =>
                if jIsStr sc "allow".toList then .terminal .approved true
                else if jIsStr sc "deny".toList then .terminal .denied false
                else if jIsStr sc "pushed".toList then .again .waiting
                else .again .unknownStatus

/-- The polling loop body.  `clock` is the sequence of instants at which the
loop observes `time.time()`; `start` is its `start_time`, `lastP` its
`last_poll`.  At each instant: leave with a timeout once `timeout` seconds
have elapsed since `start`; otherwise issue a status request only when at
least one second has passed since `last_poll`.  An exhausted clock stands for
the instant the wall-clock deadline passes, so theorems that need the real
deadline assume the clock reaches it. -/
def pollAux (c : St) (timeout : ℚ) (start : ℚ) :
    List ℚ → ℚ → Run → List ℚ → PollRes
  | [], _, r, times => ⟨logPush .timedOut r, times, .ok false⟩
  | t :: ts, lastP, r, times =>
    if timeout ≤ t - start then ⟨logPush .timedOut r, times, .ok false⟩
    else if 1 ≤ t - lastP then
      let rx := httpCall .duoStatus (duoUrl c "status".toList) r
      match pollStep rx.2 with
      | .raise e => ⟨rx.1, times ++ [t], .error e⟩
      | .terminal m b => ⟨logPush m rx.1, times ++ [t], .ok b⟩
      | .again m => pollAux c timeout start ts t (logPush m rx.1) (times ++ [t])
    else pollAux c timeout start ts lastP r times

/-- `DuoClient._poll_duo_status(timeout=60)`: the first clock reading is
`start_time` (and the initial `last_poll`); the loop then runs over the rest
of the readings. -/
def poll_duo_status (c : St) (timeout : ℚ) (clock : List ℚ) (r : Run) : PollRes :=
  match clock with
  | [] => ⟨logPush .timedOut r, [], .ok false⟩
  | t0 :: ts => pollAux c timeout t0 ts t0 r []

/-! ## `_duo_auth` (client.py lines 145-188) -/

/-- Python truthiness of the `passcode` argument: `None` and the empty string
are falsy. -/
def passcodeFalsy : Option Str → Bool
  | none => true
  | some s => s.isEmpty

/-- `DuoClient._duo_auth`, including the poll it invokes (with the polling
default `timeout=60`).  `clock` drives `_poll_duo_status`. -/
def duo_auth (c : St) (auth_method : Str) (passcode : Option Str)
    (_device : Str) (clock : List ℚ) (r : Run) : Run × Except PyExc (Bool × St) :=
  if auth_method = "Passcode".toList ∧ passcodeFalsy passcode then
    (logPush .passcodeRequired r, .ok (false, c))
  else
    let rx := httpCall .duoPrompt (duoUrl c "prompt".toList) r
    match rx.2 with
    | .error e => (rx.1, .error e)
    | .ok resp =>
      if resp.status_code ≠ 200 then
        (logPush (.duoPromptFailed resp.status_code) rx.1, .ok (false, c))
      else
        match resp.json with
        | .error e => (rx.1, .error e)
        | .ok data =>
          match jGetE data "stat".toList with
          | .error e => (rx.1, .error e)
          | .ok stat =>
            if ¬ optIsOK stat then
              (logPush .duoAuthFailedStat rx.1, .ok (false, c))
            else
              let r2 := logPush .duoStatOk rx.1
              match jIndexE data "response".toList with
              | .error e => (r2, .error e)
              | .ok respObj =>
                match jIndexE respObj "txid".toList with
                | .error e => (r2, .error e)
                | .ok txid =>
                  let c1 : St := { c with txid := some txid }
                  let pr := poll_duo_status c1 60 clock r2
                  match pr.res with
                  | .error e => (pr.run, .error e)
                  | .ok b => (pr.run, .ok (b, c1))

/-! ## `_complete_saml` (client.py lines 234-258) -/

/-- `DuoClient._complete_saml`.  The exit response's HTTP status is never
checked; `if not saml_response` treats an empty extracted string like a
missing one. -/
def complete_saml (c : St) (_auth_method : Str) (r : Run) :
    Run × Except PyExc (Bool × St) :=
  let rx := httpCall .duoExit (duoUrl c "oidc/exit".toList) r
  match rx.2 with
  | .error e => (rx.1, .error e)
  | .ok resp =>
    match extract_saml_response resp.doc with
    | .error e => (rx.1, .error e)
    | .ok saml =>
      if saml = none ∨ saml = some [] then
        (logPush .samlMissing rx.1, .ok (false, c))
      else
        let rx2 := httpCall .samlPost (c.url ++ c.saml_url) rx.1
        match rx2.2 with
        | .error e => (rx2.1, .error e)
        | .ok resp2 =>
          if resp2.status_code ≠ 200 then
            (logPush (.samlFailed resp2.status_code) rx2.1, .ok (false, c))
          else (rx2.1, .ok (true, c))

/-! ## `authenticate` (client.py lines 40-72) -/

/-- The body of `authenticate` without its top-level `try`/`except`: the
three steps in sequence, each aborting the chain on a `False` result, any
exception propagating. -/
def authenticateE (c : St) (auth_method : Str) (passcode : Option Str)
    (device : Str) (clock : List ℚ) (r : Run) : Run × Except PyExc (Bool × St) :=
  let s1 := initial_login c r
  match s1.2 with
  | .error e => (s1.1, .error e)
  | .ok (false, c1) => (s1.1, .ok (false, c1))
  | .ok (true, c1) =>
    let s2 := duo_auth c1 auth_method passcode device clock s1.1
    match s2.2 with
    | .error e => (s2.1, .error e)
    | .ok (false, c2) => (s2.1, .ok (false, c2))
    | .ok (true, c2) => complete_saml c2 auth_method s2.1

/-- `DuoClient.authenticate`: every exception from the chain is caught at the
top level, printed as a diagnostic, and converted into a `False` result. -/
def authenticate (c : St) (auth_method : Str) (passcode : Option Str)
    (device : Str) (clock : List ℚ) (r : Run) : Bool × Run :=
  let sE := authenticateE c auth_method passcode device clock r
  match sE.2 with
  | .error e => (false, logPush (.authFailedExc e) sE.1)
  | .ok (b, _) => (b, sE.1)

/-! ## Derived vocabulary used by the theorems -/

/-- The request a status poll issues. -/
def statusReq (c : St) : Req := ⟨.duoStatus, duoUrl c "status".toList⟩

/-- A scripted status response of the shape the spec describes: HTTP 200,
`stat` `"OK"`, and the given `status_code`. -/
def statusResp (sc : Str) : HttpResp :=
  { status_code := 200
    url := []
    doc := []
    json := .ok (.o [("stat".toList, .s "OK".toList),
                     ("response".toList, .o [("status_code".toList, .s sc)])]) }

/-- A response on which the loop keeps polling. -/
def PushyStep (x : Except PyExc HttpResp) : Prop :=
  ∃ m, pollStep x = .again m

/-- The clock instants `j+1, j+2, ..., 60`: the idealized schedule on which
the loop observes the clock exactly once per second after a start at `0`,
with zero processing time.  This is the fastest schedule the busy-wait can
realize; any real run observes the clock at least this late. -/
def clockSeg (j : Nat) : List ℚ :=
  (List.range (60 - j)).map (fun i => ((j + 1 + i : Nat) : ℚ))

/-- The idealized clock for a whole default-timeout run: a start at `0`
followed by one reading per second up to the deadline. -/
def idealClock : List ℚ := (0 : ℚ) :: clockSeg 0

/-- Requests addressed to the provider transport (`duo_auth.py`). -/
def isDuoReq (q : Req) : Bool :=
  decide (q.kind = .duoPrompt) || decide (q.kind = .duoStatus) ||
    decide (q.kind = .duoExit)

/-- How many provider-transport requests a trace contains. -/
def duoCalls (l : List Req) : Nat := l.countP isDuoReq

/-- `pat` matches at no position strictly before `n` in `l`: the scan of
`re.search` reaches position `n` without a hit. -/
abbrev NoMatchBefore (pat l : Str) (n : Nat) : Prop :=
  ∀ i < n, matchesAt pat (l.drop i) = false

/-! ## Concrete documents, responses and scripts for witnesses -/

/-- A fresh run over a given script: no requests issued yet. -/
def runOf (s : Nat → Except PyExc HttpResp) : Run := ⟨s, 0, [], []⟩

/-- A responder that always reports `pushed`. -/
def pushyScript : Nat → Except PyExc HttpResp :=
  fun _ => .ok (statusResp "pushed".toList)

/-- The spec's scripted responder with `N = 59`: `pushed` 59 times, then
`allow`. -/
def pushed59Script : Nat → Except PyExc HttpResp :=
  fun k => if k < 59 then .ok (statusResp "pushed".toList)
           else .ok (statusResp "allow".toList)

/-- The spec's scripted responder with `N = 2`: `pushed` twice, then
`allow`. -/
def pushed2Script : Nat → Except PyExc HttpResp :=
  fun k => if k < 2 then .ok (statusResp "pushed".toList)
           else .ok (statusResp "allow".toList)

/-- A login page with a valued `csrf_token` input and a POST form. -/
def loginDoc : List Element :=
  [⟨"input".toList, [("name".toList, "csrf_token".toList),
                     ("value".toList, "TOK1".toList)]⟩,
   ⟨"form".toList, [("method".toList, "post".toList),
                    ("action".toList, "/idp/login".toList)]⟩]

/-- A Duo frame page with valued `tx`, `_xsrf` and `akey` inputs. -/
def duoFrameDoc : List Element :=
  [⟨"input".toList, [("name".toList, "tx".toList), ("value".toList, "TX1".toList)]⟩,
   ⟨"input".toList, [("name".toList, "_xsrf".toList), ("value".toList, "XS1".toList)]⟩,
   ⟨"input".toList, [("name".toList, "akey".toList), ("value".toList, "AK1".toList)]⟩]

/-- An exit page carrying a `SAMLResponse` value. -/
def samlDoc : List Element :=
  [⟨"input".toList, [("name".toList, "SAMLResponse".toList),
                     ("value".toList, "SAML123==".toList)]⟩]

/-- A login page whose `csrf_token` input has no `value` attribute. -/
def csrfNoValueDoc : List Element :=
  [⟨"input".toList, [("name".toList, "csrf_token".toList)]⟩,
   ⟨"form".toList, [("method".toList, "post".toList),
                    ("action".toList, "/idp/login".toList)]⟩]

/-- A successful entry-page response. -/
def entryOkResp : HttpResp :=
  { status_code := 200
    url := "https://idpz.utorauth.utoronto.ca/login".toList
    doc := loginDoc
    json := .error .jsonErr }

/-- A successful credentials response redirected to a Duo frame URL. -/
def credsOkResp : HttpResp :=
  { status_code := 200
    url := "https://api-1.duosecurity.com/frame/v4/auth?sid=SID1&tx=T".toList
    doc := duoFrameDoc
    json := .error .jsonErr }

/-- A credentials response whose URL carries an `ssid` parameter before the
`sid` parameter. -/
def credsSsidResp : HttpResp :=
  { status_code := 200
    url := "https://xyz.duosecurity.com/frame?ssid=Q&sid=ABC123".toList
    doc := duoFrameDoc
    json := .error .jsonErr }

/-- A credentials response whose URL has no `sid=` at all. -/
def credsNoSidResp : HttpResp :=
  { status_code := 200
    url := "https://idpz.utorauth.utoronto.ca/authfail".toList
    doc := duoFrameDoc
    json := .error .jsonErr }

/-- A credentials response with a `sid` but no `https://…duosecurity.com`
host anywhere in the URL. -/
def credsNoHostResp : HttpResp :=
  { status_code := 200
    url := "https://idpz.utorauth.utoronto.ca/x?sid=S2&y=1".toList
    doc := duoFrameDoc
    json := .error .jsonErr }

/-- A bare 200 response with nothing in it. -/
def emptyResp : HttpResp :=
  { status_code := 200, url := [], doc := [], json := .error .jsonErr }

/-- A 500 response. -/
def resp500 : HttpResp :=
  { status_code := 500, url := [], doc := [], json := .error .jsonErr }

/-- An exit response carrying the SAML document. -/
def samlResp : HttpResp :=
  { status_code := 200, url := [], doc := samlDoc, json := .error .jsonErr }

/-- A script on which the initial login succeeds and the next request raises
a connection error. -/
def loginOkScript : Nat → Except PyExc HttpResp :=
  fun k =>
    if k = 0 then .ok entryOkResp
    else if k = 1 then .ok credsOkResp
    else if k = 2 then .ok emptyResp
    else .error .connErr

/-- Like `loginOkScript` but with the `ssid`-then-`sid` redirect URL. -/
def ssidScript : Nat → Except PyExc HttpResp :=
  fun k =>
    if k = 0 then .ok entryOkResp
    else if k = 1 then .ok credsSsidResp
    else if k = 2 then .ok emptyResp
    else .error .connErr

/-- A script whose every response is a 500. -/
def http500Script : Nat → Except PyExc HttpResp := fun _ => .ok resp500

/-- Like `loginOkScript` but with the sid-free redirect URL. -/
def noSidScript : Nat → Except PyExc HttpResp :=
  fun k =>
    if k = 0 then .ok entryOkResp
    else if k = 1 then .ok credsNoSidResp
    else if k = 2 then .ok emptyResp
    else .error .connErr

/-- Like `loginOkScript` but with the host-free redirect URL. -/
def noHostScript : Nat → Except PyExc HttpResp :=
  fun k =>
    if k = 0 then .ok entryOkResp
    else if k = 1 then .ok credsNoHostResp
    else if k = 2 then .ok emptyResp
    else .error .connErr

/-- The client state `_initial_login` produces on `loginOkScript`. -/
def stAfterLoginOk : St :=
  { username := []
    password := []
    url := "https://acorn.utoronto.ca/".toList
    saml_url := "spACS".toList
    duo_host := some "api-1.duosecurity.com".toList
    sid := some "SID1".toList
    tx := some "TX1".toList
    txid := none
    xsrf := some "XS1".toList
    akey := some "AK1".toList }

/-- The client state `_initial_login` produces on `noHostScript`. -/
def stAfterNoHost : St :=
  { username := []
    password := []
    url := "https://acorn.utoronto.ca/".toList
    saml_url := "spACS".toList
    duo_host := some "api-832cdf07.duosecurity.com".toList
    sid := some "S2".toList
    tx := some "TX1".toList
    txid := none
    xsrf := some "XS1".toList
    akey := some "AK1".toList }

/-- A script whose first response is the SAML exit page. -/
def exitScript : Nat → Except PyExc HttpResp :=
  fun k => if k = 0 then .ok samlResp else .ok emptyResp

/-! ## Shared lemmas: literal scanning -/

theorem matchesAt_append_left (p x : Str) : matchesAt p (p ++ x) = true := by
  induction p with
  | nil => rfl
  | cons a ps ih => simp [matchesAt, ih]

theorem matchesAt_refl (p : Str) : matchesAt p p = true := by
  simpa using matchesAt_append_left p []

theorem takeWhile_append_stop (p : Char → Bool) (l₁ l₂ : Str) (x : Char)
    (h1 : ∀ a ∈ l₁, p a = true) (h2 : p x = false) :
    (l₁ ++ x :: l₂).takeWhile p = l₁ := by
  induction l₁ with
  | nil => simp [List.takeWhile_cons_of_neg, h2]
  | cons a as ih =>
    have ha : p a = true := h1 a (by simp)
    rw [List.cons_append, List.takeWhile_cons_of_pos ha,
      ih (fun b hb => h1 b (by simp [hb]))]

theorem endsWith_append (a suf : Str) : endsWith suf (a ++ suf) = true := by
  unfold endsWith
  rw [List.length_append, Nat.add_sub_cancel, List.drop_left]
  exact matchesAt_refl suf

/-- The `re.search('sid=([^&]+)', ...)` scan passes over a prefix in which
the literal never matches. -/
theorem sidCapture_skip (pre l : Str)
    (h : NoMatchBefore sidPat (pre ++ l) pre.length) :
    sidCapture (pre ++ l) = sidCapture l := by
  induction pre with
  | nil => rfl
  | cons c pre ih =>
    have h0 : matchesAt sidPat ((c :: pre) ++ l) = false := h 0 (by simp)
    simp only [List.cons_append] at h0 ⊢
    simp only [sidCapture, h0]
    simp only [Bool.false_eq_true, if_false]
    exact ih (fun i hi => by
      have := h (i + 1) (by simpa using Nat.succ_lt_succ hi)
      simpa using this)

/-- At a position where `sid=` matches with a nonempty `&`-free value behind
it, the capture is exactly that value. -/
theorem sidCapture_at_head (V post : Str) (hV : V ≠ [])
    (hamp : ∀ ch ∈ V, ch ≠ '&') :
    sidCapture (sidPat ++ (V ++ '&' :: post)) = some V := by
  have hshape : sidPat ++ (V ++ '&' :: post)
      = 's' :: ('i' :: ('d' :: ('=' :: (V ++ '&' :: post)))) := rfl
  have hm : matchesAt sidPat
      ('s' :: ('i' :: ('d' :: ('=' :: (V ++ '&' :: post))))) = true := by
    simpa [hshape] using matchesAt_append_left sidPat (V ++ '&' :: post)
  have htake : (V ++ '&' :: post).takeWhile (fun ch => ch ≠ '&') = V := by
    refine takeWhile_append_stop _ V post '&' (fun b hb => ?_) (by simp)
    simpa using hamp b hb
  rw [hshape]
  simp only [sidCapture, hm, if_true, List.drop_succ_cons, List.drop_zero]
  rw [htake]
  simp [List.isEmpty_iff, hV]

theorem sidCapture_extract (pre V post : Str) (hV : V ≠ [])
    (hamp : ∀ ch ∈ V, ch ≠ '&')
    (h : NoMatchBefore sidPat (pre ++ sidPat ++ V ++ '&' :: post) pre.length) :
    sidCapture (pre ++ sidPat ++ V ++ '&' :: post) = some V := by
  have hassoc : pre ++ sidPat ++ V ++ '&' :: post
      = pre ++ (sidPat ++ (V ++ '&' :: post)) := by
    simp [List.append_assoc]
  rw [hassoc] at h ⊢
  rw [sidCapture_skip pre _ h]
  exact sidCapture_at_head V post hV hamp

/-- The host scan likewise passes over a hit-free prefix. -/
theorem duoHostSearch_skip (pre l : Str)
    (h : NoMatchBefore httpsPat (pre ++ l) pre.length) :
    duoHostSearch (pre ++ l) = duoHostSearch l := by
  induction pre with
  | nil => rfl
  | cons c pre ih =>
    have h0 : matchesAt httpsPat ((c :: pre) ++ l) = false := h 0 (by simp)
    simp only [List.cons_append] at h0 ⊢
    simp only [duoHostSearch, h0]
    simp only [Bool.false_eq_true, if_false]
    exact ih (fun i hi => by
      have := h (i + 1) (by simpa using Nat.succ_lt_succ hi)
      simpa using this)

theorem duoSuffix_no_slash : ∀ ch ∈ duoSuffix, ch ≠ '/' := by decide

/-- At a position where `https://` matches and a slash-free host of the form
`x.duosecurity.com` follows before the next `/`, the capture is that host. -/
theorem duoHostSearch_at_head (x rest : Str) (hx : x ≠ [])
    (hsl : ∀ ch ∈ x, ch ≠ '/') :
    duoHostSearch (httpsPat ++ (x ++ duoSuffix ++ '/' :: rest))
      = some (x ++ duoSuffix) := by
  have hshape : httpsPat ++ (x ++ duoSuffix ++ '/' :: rest)
      = 'h' :: ('t' :: ('t' :: ('p' :: ('s' :: (':' :: ('/' :: ('/' ::
          (x ++ duoSuffix ++ '/' :: rest)))))))) := rfl
  have hm : matchesAt httpsPat ('h' :: ('t' :: ('t' :: ('p' :: ('s' :: (':' :: ('/' :: ('/' ::
      (x ++ duoSuffix ++ '/' :: rest))))))))) = true := by
    simpa [hshape] using matchesAt_append_left httpsPat (x ++ duoSuffix ++ '/' :: rest)
  have htake : (x ++ duoSuffix ++ '/' :: rest).takeWhile (fun ch => ch ≠ '/')
      = x ++ duoSuffix := by
    rw [show x ++ duoSuffix ++ '/' :: rest = (x ++ duoSuffix) ++ '/' :: rest by
      simp [List.append_assoc]]
    refine takeWhile_append_stop _ (x ++ duoSuffix) rest '/' (fun b hb => ?_) (by simp)
    rcases List.mem_append.1 hb with hbx | hbs
    · simpa using hsl b hbx
    · simpa using duoSuffix_no_slash b hbs
  have hlen : (x ++ duoSuffix).length = x.length + 16 := by
    simp [duoSuffix]
  have hx1 : 1 ≤ x.length := by
    cases x with
    | nil => exact absurd rfl hx
    | cons a as => simp
  obtain ⟨n, hn⟩ : ∃ n, (x ++ duoSuffix).length = n + 1 := by
    refine ⟨(x ++ duoSuffix).length - 1, ?_⟩
    omega
  have hlong : greedyDuoCapture (x ++ duoSuffix) ((x ++ duoSuffix).length)
      = some (x ++ duoSuffix) := by
    rw [hn]
    simp only [greedyDuoCapture]
    rw [← hn, List.take_length]
    have h16 : duoSuffix.length = 16 := by decide
    rw [if_pos ⟨endsWith_append x duoSuffix, by omega, le_refl _⟩]
  rw [hshape]
  simp only [duoHostSearch, hm, if_true]
  simp only [List.drop_succ_cons, List.drop_zero]
  rw [htake, hlong]

theorem duoHostSearch_extract (pre x rest : Str) (hx : x ≠ [])
    (hsl : ∀ ch ∈ x, ch ≠ '/')
    (h : NoMatchBefore httpsPat (pre ++ httpsPat ++ x ++ duoSuffix ++ '/' :: rest)
      pre.length) :
    duoHostSearch (pre ++ httpsPat ++ x ++ duoSuffix ++ '/' :: rest)
      = some (x ++ duoSuffix) := by
  have hassoc : pre ++ httpsPat ++ x ++ duoSuffix ++ '/' :: rest
      = pre ++ (httpsPat ++ (x ++ duoSuffix ++ '/' :: rest)) := by
    simp [List.append_assoc]
  rw [hassoc] at h ⊢
  rw [duoHostSearch_skip pre _ h]
  exact duoHostSearch_at_head x rest hx hsl

/-! ## Shared lemmas: request counting -/

theorem duoCalls_append (l1 l2 : List Req) :
    duoCalls (l1 ++ l2) = duoCalls l1 + duoCalls l2 :=
  List.countP_append _ _ _

/-- `_initial_login` only ever issues the entry GET, the credentials POST and
the frame-initialization POST: it adds no provider-transport request. -/
theorem initial_login_duoCalls (c : St) (r : Run) :
    duoCalls (initial_login c r).1.trace = duoCalls r.trace := by
  unfold initial_login
  simp only [httpCall]
  repeat' split
  all_goals
    simp [logPush, duoCalls, isDuoReq, List.countP_append, List.countP_cons]

/-! ## Shared lemmas: the polling loop -/

/-- Invariant behind the 1-second cadence: a new poll is admitted only at
least one second after `lastP`, which is itself at least the last recorded
poll instant. -/
theorem pollAux_times_chain (c : St) (timeout start : ℚ) :
    ∀ (clock : List ℚ) (lastP : ℚ) (r : Run) (times : List ℚ),
      List.Chain' (fun a b => a + 1 ≤ b) times →
      (∀ x ∈ times.getLast?, x ≤ lastP) →
      List.Chain' (fun a b => a + 1 ≤ b)
        (pollAux c timeout start clock lastP r times).times := by
  intro clock
  induction clock with
  | nil =>
    intro lastP r times h1 _
    simpa [pollAux] using h1
  | cons t ts ih =>
    intro lastP r times h1 h2
    simp only [pollAux]
    split
    · simpa using h1
    · split
      · rename_i hto hcad
        have hchain : List.Chain' (fun a b => a + 1 ≤ b) (times ++ [t]) := by
          rw [List.chain'_append]
          refine ⟨h1, List.chain'_singleton t, fun x hx y hy => ?_⟩
          simp only [List.head?_cons, Option.mem_def, Option.some.injEq] at hy
          subst hy
          have hxle : x ≤ lastP := h2 x hx
          have : lastP + 1 ≤ t := by linarith
          linarith
        cases hps : pollStep ((httpCall .duoStatus (duoUrl c "status".toList) r).2) with
        | raise e => simpa [hps] using hchain
        | terminal m b => simpa [hps] using hchain
        | again m =>
          simp only [hps]
          exact ih t _ (times ++ [t]) hchain
            (fun x hx => by
              rw [List.getLast?_concat] at hx
              simp only [Option.mem_def, Option.some.injEq] at hx
              exact hx ▸ le_refl t)
      · exact ih lastP r times h1 h2

/-- No status request is ever issued at or after the deadline. -/
theorem pollAux_times_lt (c : St) (timeout start : ℚ) :
    ∀ (clock : List ℚ) (lastP : ℚ) (r : Run) (times : List ℚ),
      (∀ x ∈ times, x - start < timeout) →
      ∀ x ∈ (pollAux c timeout start clock lastP r times).times,
        x - start < timeout := by
  intro clock
  induction clock with
  | nil => intro lastP r times h; simpa [pollAux] using h
  | cons t ts ih =>
    intro lastP r times h
    simp only [pollAux]
    split
    · simpa using h
    · rename_i hto
      have ht : t - start < timeout := lt_of_not_le hto
      have hext : ∀ x ∈ times ++ [t], x - start < timeout := by
        intro x hx
        rcases List.mem_append.1 hx with hx | hx
        · exact h x hx
        · simp only [List.mem_singleton] at hx
          exact hx ▸ ht
      split
      · cases hps : pollStep ((httpCall .duoStatus (duoUrl c "status".toList) r).2) with
        | raise e => simpa [hps] using hext
        | terminal m b => simpa [hps] using hext
        | again m =>
          simp only [hps]
          exact ih t _ (times ++ [t]) hext
      · exact ih lastP r times h

/-- Under a responder that never decides, the loop always leaves through the
timeout exit, with the timeout diagnostic last. -/
theorem pollAux_pushy (c : St) (timeout start : ℚ) :
    ∀ (clock : List ℚ) (lastP : ℚ) (r : Run) (times : List ℚ),
      (∀ k, PushyStep (r.script k)) →
      (pollAux c timeout start clock lastP r times).res = .ok false ∧
      (pollAux c timeout start clock lastP r times).run.log.getLast?
        = some .timedOut := by
  intro clock
  induction clock with
  | nil =>
    intro lastP r times _
    exact ⟨rfl, by simp [pollAux, logPush, List.getLast?_concat]⟩
  | cons t ts ih =>
    intro lastP r times hp
    simp only [pollAux]
    split
    · exact ⟨rfl, by simp [logPush, List.getLast?_concat]⟩
    · split
      · obtain ⟨m, hm⟩ := hp r.nextIdx
        have hm' : pollStep ((httpCall .duoStatus (duoUrl c "status".toList) r).2)
            = .again m := by simpa [httpCall] using hm
        rw [hm']
        exact ih t _ (times ++ [t]) (fun k => hp k)
      · exact ih lastP r times hp

theorem clockSeg_cons (j : Nat) (hj : j < 60) :
    clockSeg j = ((j + 1 : Nat) : ℚ) :: clockSeg (j + 1) := by
  unfold clockSeg
  have h60 : 60 - j = (60 - (j + 1)) + 1 := by omega
  rw [h60, List.range_succ_eq_map, List.map_cons, List.map_map]
  refine congrArg₂ List.cons (by norm_num) (List.map_congr_left fun i _ => ?_)
  simp only [Function.comp_apply]
  congr 1
  omega

/-- On the ideal schedule, a run of `M` keep-polling responses followed by an
`allow` is approved with exactly `M + 1` status requests, all of them
recorded on the trace. -/
theorem pollAux_seg (c : St) :
    ∀ (M j : Nat) (r : Run) (times : List ℚ) (ms : Nat → LogMsg),
      j + M + 1 ≤ 59 →
      (∀ i, i < M → pollStep (r.script (r.nextIdx + i)) = .again (ms i)) →
      pollStep (r.script (r.nextIdx + M)) = .terminal .approved true →
      (pollAux c 60 0 (clockSeg j) ((j : Nat) : ℚ) r times).res = .ok true ∧
      (pollAux c 60 0 (clockSeg j) ((j : Nat) : ℚ) r times).times.length
          = times.length + (M + 1) ∧
      (pollAux c 60 0 (clockSeg j) ((j : Nat) : ℚ) r times).run.trace
          = r.trace ++ List.replicate (M + 1) (statusReq c) := by
  intro M
  induction M with
  | zero =>
    intro j r times ms hj hpush hterm
    rw [clockSeg_cons j (by omega)]
    have hjq : (j : ℚ) ≤ 58 := by
      have hj58 : j ≤ 58 := by omega
      exact_mod_cast hj58
    simp only [pollAux]
    rw [if_neg (by push_cast; intro hcon; linarith)]
    rw [if_pos (by push_cast; linarith)]
    have h0 : pollStep ((httpCall .duoStatus (duoUrl c "status".toList) r).2)
        = .terminal .approved true := by
      simpa [httpCall] using hterm
    rw [h0]
    refine ⟨rfl, by simp, ?_⟩
    simp [logPush, httpCall, statusReq]
  | succ M ih =>
    intro j r times ms hj hpush hterm
    rw [clockSeg_cons j (by omega)]
    have hjq : (j : ℚ) ≤ 58 := by
      have hj58 : j ≤ 58 := by omega
      exact_mod_cast hj58
    simp only [pollAux]
    rw [if_neg (by push_cast; intro hcon; linarith)]
    rw [if_pos (by push_cast; linarith)]
    have h0 : pollStep ((httpCall .duoStatus (duoUrl c "status".toList) r).2)
        = .again (ms 0) := by
      have := hpush 0 (by omega)
      simpa [httpCall] using this
    rw [h0]
    have hpush' : ∀ i, i < M →
        pollStep ((logPush (ms 0) (httpCall .duoStatus (duoUrl c "status".toList) r).1).script
          ((logPush (ms 0) (httpCall .duoStatus (duoUrl c "status".toList) r).1).nextIdx + i))
          = .again (ms (i + 1)) := by
      intro i hi
      have harith : r.nextIdx + 1 + i = r.nextIdx + (i + 1) := by omega
      have := hpush (i + 1) (by omega)
      simpa [httpCall, logPush, harith] using this
    have hterm' :
        pollStep ((logPush (ms 0) (httpCall .duoStatus (duoUrl c "status".toList) r).1).script
          ((logPush (ms 0) (httpCall .duoStatus (duoUrl c "status".toList) r).1).nextIdx + M))
          = .terminal .approved true := by
      have harith : r.nextIdx + 1 + M = r.nextIdx + (M + 1) := by omega
      simpa [httpCall, logPush, harith] using hterm
    obtain ⟨h1, h2, h3⟩ := ih (j + 1)
      (logPush (ms 0) (httpCall .duoStatus (duoUrl c "status".toList) r).1)
      (times ++ [((j + 1 : Nat) : ℚ)]) (fun i => ms (i + 1)) (by omega) hpush' hterm'
    push_cast at h1 h2 h3 ⊢
    refine ⟨h1, ?_, ?_⟩
    · rw [h2]
      simp only [List.length_append, List.length_singleton]
      omega
    · rw [h3]
      simp only [logPush, httpCall, statusReq]
      rw [List.append_assoc]
      congr 1

/-- A first response that the loop body classifies as terminal ends the run
after exactly one status request, with that decision's diagnostic last. -/
theorem pollAux_first_terminal (c : St) (j : Nat) (r : Run) (times : List ℚ)
    (m : LogMsg) (b : Bool) (hj : j + 1 ≤ 59)
    (hterm : pollStep (r.script r.nextIdx) = .terminal m b) :
    (pollAux c 60 0 (clockSeg j) ((j : Nat) : ℚ) r times).res = .ok b ∧
    (pollAux c 60 0 (clockSeg j) ((j : Nat) : ℚ) r times).times.length
        = times.length + 1 ∧
    (pollAux c 60 0 (clockSeg j) ((j : Nat) : ℚ) r times).run.trace
        = r.trace ++ [statusReq c] ∧
    (pollAux c 60 0 (clockSeg j) ((j : Nat) : ℚ) r times).run.log
        = r.log ++ [m] := by
  rw [clockSeg_cons j (by omega)]
  have hjq : (j : ℚ) ≤ 58 := by
    have hj58 : j ≤ 58 := by omega
    exact_mod_cast hj58
  simp only [pollAux]
  rw [if_neg (by push_cast; intro hcon; linarith)]
  rw [if_pos (by push_cast; linarith)]
  have h0 : pollStep ((httpCall .duoStatus (duoUrl c "status".toList) r).2)
      = .terminal m b := by
    simpa [httpCall] using hterm
  rw [h0]
  exact ⟨rfl, by simp, by simp [logPush, httpCall, statusReq],
    by simp [logPush, httpCall]⟩

/-- How the loop body classifies a 200/`"OK"` response by its
`status_code`. -/
theorem pollStep_statusResp (sc : Str) :
    pollStep (.ok (statusResp sc))
      = if sc = "allow".toList then .terminal .approved true
        else if sc = "deny".toList then .terminal .denied false
        else if sc = "pushed".toList then .again .waiting
        else .again .unknownStatus := by
  simp [pollStep, statusResp, jGetE, jIndexE, optIsOK, jIsStr]

/-! ## Claim theorems -/

/-- C4: during one run of the polling loop, no two consecutive status
requests are issued less than one second apart: for every clock schedule,
every scripted transport and every timeout, consecutive recorded poll
instants differ by at least 1. -/
theorem C4_poll_cadence (c : St) (timeout : ℚ) (clock : List ℚ) (r : Run) :
    List.Chain' (fun a b => a + 1 ≤ b) (poll_duo_status c timeout clock r).times := by
  cases clock with
  | nil => simp [poll_duo_status]
  | cons t0 ts =>
    exact pollAux_times_chain c timeout t0 ts t0 r [] (by simp) (by simp)

/-- C3: the polling loop always terminates at the wall-clock deadline: every
status request is issued strictly before `timeout` seconds have elapsed
since the loop started, for every response sequence; when the responder
never returns an `allow`/`deny` decision (it keeps answering `pushed` or
anything unrecognized), the loop returns the failure result with the
timeout diagnostic as its last report; and that timeout reason is
distinguishable from the deny reason. -/
theorem C3_poll_timeout :
    (∀ (c : St) (timeout : ℚ) (t0 : ℚ) (ts : List ℚ) (r : Run),
        ∀ x ∈ (poll_duo_status c timeout (t0 :: ts) r).times, x - t0 < timeout) ∧
    (∀ (c : St) (timeout : ℚ) (clock : List ℚ) (r : Run),
        (∀ k, PushyStep (r.script k)) →
        (poll_duo_status c timeout clock r).res = .ok false ∧
        (poll_duo_status c timeout clock r).run.log.getLast? = some .timedOut) ∧
    LogMsg.timedOut ≠ LogMsg.denied := by
  refine ⟨?_, ?_, by simp⟩
  · intro c timeout t0 ts r
    exact pollAux_times_lt c timeout t0 ts t0 r [] (by simp)
  · intro c timeout clock r hp
    cases clock with
    | nil =>
      exact ⟨rfl, by simp [poll_duo_status, logPush, List.getLast?_concat]⟩
    | cons t0 ts => exact pollAux_pushy c timeout t0 ts t0 r [] hp

theorem C3_poll_timeout_witness :
    (poll_duo_status (mkClient [] []) 60 idealClock (runOf pushyScript)).res
        = .ok false ∧
    (poll_duo_status (mkClient [] []) 60 idealClock (runOf pushyScript)).run.log.getLast?
        = some .timedOut :=
  C3_poll_timeout.2.1 (mkClient [] []) 60 idealClock (runOf pushyScript)
    (fun _ => ⟨.waiting, rfl⟩)

/-- C2 (counterexample): the claim quantifies over every `N`, but with the
default 60-second timeout the loop issues at most 59 status requests.  With
the scripted responder for `N = 59` (`pushed` 59 times, then `allow`) on the
ideal once-per-second schedule, the loop does not return success after
`N + 1 = 60` requests as claimed: it times out with a failure result after
59 requests. -/
theorem C2_counterexample :
    (poll_duo_status (mkClient [] []) 60 idealClock (runOf pushed59Script)).res
        = .ok false ∧
    (poll_duo_status (mkClient [] []) 60 idealClock (runOf pushed59Script)).times.length
        = 59 := by
  constructor
  · with_unfolding_all rfl
  · with_unfolding_all rfl

/-- C2 (amended): on the ideal once-per-second schedule with the default
60-second timeout, and provided the `allow` decision arrives within the
deadline (`N + 1 ≤ 59`): a responder giving `N` keep-polling responses
(`pushed` or unrecognized) and then `allow` leads to success after exactly
`N + 1` status requests; a first terminal response (in particular `deny`)
ends the run after exactly 1 status request with its diagnostic; and on
200/`"OK"` responses exactly `allow` and `deny` are terminal while `pushed`
and every unrecognized code keep the loop polling. -/
theorem C2_poll_counts :
    (∀ (c : St) (r : Run) (N : Nat) (ms : Nat → LogMsg),
      N + 1 ≤ 59 → r.trace = [] →
      (∀ i, i < N → pollStep (r.script (r.nextIdx + i)) = .again (ms i)) →
      pollStep (r.script (r.nextIdx + N)) = .terminal .approved true →
      (poll_duo_status c 60 idealClock r).res = .ok true ∧
      (poll_duo_status c 60 idealClock r).run.trace
          = List.replicate (N + 1) (statusReq c)) ∧
    (∀ (c : St) (r : Run) (m : LogMsg) (b : Bool),
      r.trace = [] →
      pollStep (r.script r.nextIdx) = .terminal m b →
      (poll_duo_status c 60 idealClock r).res = .ok b ∧
      (poll_duo_status c 60 idealClock r).run.trace = [statusReq c] ∧
      (poll_duo_status c 60 idealClock r).run.log.getLast? = some m) ∧
    (∀ sc : Str, sc ≠ "allow".toList → sc ≠ "deny".toList →
      pollStep (.ok (statusResp sc))
        = .again (if sc = "pushed".toList then .waiting else .unknownStatus)) ∧
    pollStep (.ok (statusResp "allow".toList)) = .terminal .approved true ∧
    pollStep (.ok (statusResp "deny".toList)) = .terminal .denied false := by
  refine ⟨?_, ?_, ?_, rfl, rfl⟩
  · intro c r N ms hN htr hpush hterm
    have h := pollAux_seg c N 0 r [] ms (by omega) hpush hterm
    simp only [Nat.cast_zero] at h
    obtain ⟨h1, h2, h3⟩ := h
    refine ⟨h1, ?_⟩
    rw [show poll_duo_status c 60 idealClock r
        = pollAux c 60 0 (clockSeg 0) 0 r [] from rfl] at *
    rw [h3, htr, List.nil_append]
  · intro c r m b htr hterm
    have h := pollAux_first_terminal c 0 r [] m b (by omega) hterm
    simp only [Nat.cast_zero] at h
    obtain ⟨h1, h2, h3, h4⟩ := h
    rw [show poll_duo_status c 60 idealClock r
        = pollAux c 60 0 (clockSeg 0) 0 r [] from rfl]
    refine ⟨h1, ?_, ?_⟩
    · rw [h3, htr, List.nil_append]
    · rw [h4, List.getLast?_concat]
  · intro sc h1 h2
    rw [pollStep_statusResp]
    rw [if_neg h1, if_neg h2]
    by_cases hp : sc = "pushed".toList
    · rw [if_pos hp, if_pos hp]
    · rw [if_neg hp, if_neg hp]

theorem C2_poll_counts_witness :
    (poll_duo_status (mkClient [] []) 60 idealClock (runOf pushed2Script)).res
        = .ok true ∧
    (poll_duo_status (mkClient [] []) 60 idealClock (runOf pushed2Script)).run.trace
        = List.replicate 3 (statusReq (mkClient [] [])) ∧
    (poll_duo_status (mkClient [] []) 60 idealClock
        (runOf (fun _ => .ok (statusResp "deny".toList)))).res = .ok false ∧
    (poll_duo_status (mkClient [] []) 60 idealClock
        (runOf (fun _ => .ok (statusResp "deny".toList)))).run.trace
        = [statusReq (mkClient [] [])] ∧
    pollStep (.ok (statusResp "mystery".toList)) = .again .unknownStatus := by
  obtain ⟨ha, hb⟩ := C2_poll_counts.1 (mkClient [] []) (runOf pushed2Script) 2
    (fun _ => .waiting) (by omega) rfl
    (fun i hi => by interval_cases i <;> rfl) rfl
  obtain ⟨hc, hd, _⟩ := C2_poll_counts.2.1 (mkClient [] [])
    (runOf (fun _ => .ok (statusResp "deny".toList))) .denied false rfl rfl
  have he := C2_poll_counts.2.2.1 "mystery".toList (by decide) (by decide)
  exact ⟨ha, hb, hc, hd, by simpa using he⟩

/-- C7 (amended): each extractor returns the "not found" signal (`None`) and
raises nothing whenever a required named element is absent from the parsed
document — for the login-page pair, the three challenge-frame fields, and the
exit-page assertion alike.  However, when a matching element is present but
lacks the attribute whose value is extracted, the extractor does not return
`None`: it raises a `KeyError` (shown here for the login-page extractor,
whose `csrf_elem['value']` read fails first). -/
theorem C7_extractors :
    (∀ doc : List Element,
      (findElem doc "input".toList "name".toList "csrf_token".toList = none ∨
       findElem doc "form".toList "method".toList "post".toList = none) →
      extract_csrf_and_action doc = .ok none) ∧
    (∀ doc : List Element,
      (findElem doc "input".toList "name".toList "tx".toList = none ∨
       findElem doc "input".toList "name".toList "_xsrf".toList = none ∨
       findElem doc "input".toList "name".toList "akey".toList = none) →
      extract_duo_tokens doc = .ok none) ∧
    (∀ doc : List Element,
      findElem doc "input".toList "name".toList "SAMLResponse".toList = none →
      extract_saml_response doc = .ok none) ∧
    (∀ (doc : List Element) (e f : Element),
      findElem doc "input".toList "name".toList "csrf_token".toList = some e →
      findElem doc "form".toList "method".toList "post".toList = some f →
      getAttr e "value".toList = none →
      extract_csrf_and_action doc = .error (.keyErr "value".toList)) := by
  refine ⟨?_, ?_, ?_, ?_⟩
  · intro doc h
    unfold extract_csrf_and_action
    cases hc : findElem doc "input".toList "name".toList "csrf_token".toList with
    | none => rfl
    | some e =>
      rcases h with h | h
      · rw [h] at hc
        exact Option.noConfusion hc
      · rw [h]
  · intro doc h
    unfold extract_duo_tokens
    cases h1 : findElem doc "input".toList "name".toList "tx".toList with
    | none => rfl
    | some e1 =>
      cases h2 : findElem doc "input".toList "name".toList "_xsrf".toList with
      | none => rfl
      | some e2 =>
        rcases h with h | h | h
        · rw [h] at h1
          exact Option.noConfusion h1
        · rw [h] at h2
          exact Option.noConfusion h2
        · rw [h]
  · intro doc h
    unfold extract_saml_response
    rw [h]
  · intro doc e f he hf hv
    unfold extract_csrf_and_action
    rw [he, hf]
    change (match getAttr e "value".toList with
      | none => (Except.error (PyExc.keyErr "value".toList) :
          Except PyExc (Option (Str × Str)))
      | some v =>
        match getAttr f "action".toList with
        | none => .error (.keyErr "action".toList)
        | some a => .ok (some (v, a))) = _
    rw [hv]

theorem C7_extractors_witness :
    extract_csrf_and_action [] = .ok none ∧
    extract_duo_tokens [] = .ok none ∧
    extract_saml_response [] = .ok none ∧
    extract_csrf_and_action csrfNoValueDoc = .error (.keyErr "value".toList) :=
  ⟨C7_extractors.1 [] (Or.inl rfl),
   C7_extractors.2.1 [] (Or.inl rfl),
   C7_extractors.2.2.1 [] rfl,
   C7_extractors.2.2.2 csrfNoValueDoc
     ⟨"input".toList, [("name".toList, "csrf_token".toList)]⟩
     ⟨"form".toList, [("method".toList, "post".toList),
                      ("action".toList, "/idp/login".toList)]⟩
     rfl rfl rfl⟩

/-- C7 (counterexample): on well-formed HTML whose `csrf_token` input exists
but has no `value` attribute (with the POST form present), the login-page
extractor raises a `KeyError` instead of returning the "not found" signal,
contradicting the claim's "never raises … including HTML where a matching
element exists but lacks the attribute whose value is extracted". -/
theorem C7_counterexample :
    extract_csrf_and_action csrfNoValueDoc = .error (.keyErr "value".toList) ∧
    extract_csrf_and_action csrfNoValueDoc ≠ .ok none := by
  refine ⟨rfl, ?_⟩
  intro h
  have h2 : (Except.error (PyExc.keyErr "value".toList) :
      Except PyExc (Option (Str × Str))) = .ok none := by
    rw [← h]
    rfl
  simp at h2

/-- C10: a fresh client defaults its service target to the entry URL
`https://acorn.utoronto.ca/` and the assertion-consumer path `spACS`;
`set_service` overwrites exactly those two fields, leaving every other piece
of orchestrator state untouched; `access_service` on a default client GETs
the default entry URL; and the assertion submission of `_complete_saml` on a
default client posts to the concatenation `https://acorn.utoronto.ca/spACS`. -/
theorem C10_service_defaults :
    (∀ u p : Str,
      (mkClient u p).url = "https://acorn.utoronto.ca/".toList ∧
      (mkClient u p).saml_url = "spACS".toList) ∧
    (∀ (c : St) (u su : Str),
      (set_service c u su).url = u ∧ (set_service c u su).saml_url = su ∧
      (set_service c u su).username = c.username ∧
      (set_service c u su).password = c.password ∧
      (set_service c u su).duo_host = c.duo_host ∧
      (set_service c u su).sid = c.sid ∧
      (set_service c u su).tx = c.tx ∧
      (set_service c u su).txid = c.txid ∧
      (set_service c u su).xsrf = c.xsrf ∧
      (set_service c u su).akey = c.akey) ∧
    (∀ (u p : Str) (r : Run),
      (access_service (mkClient u p) r).1.trace
        = r.trace ++ [⟨.serviceGet, "https://acorn.utoronto.ca/".toList⟩]) ∧
    (∀ (u p m : Str) (r : Run) (resp : HttpResp) (s : Str),
      r.script r.nextIdx = .ok resp →
      extract_saml_response resp.doc = .ok (some s) → s ≠ [] →
      (complete_saml (mkClient u p) m r).1.trace
        = r.trace ++ [⟨.duoExit, duoUrl (mkClient u p) "oidc/exit".toList⟩,
            ⟨.samlPost, "https://acorn.utoronto.ca/spACS".toList⟩]) := by
  refine ⟨fun u p => ⟨rfl, rfl⟩,
    fun c u su => ⟨rfl, rfl, rfl, rfl, rfl, rfl, rfl, rfl, rfl, rfl⟩,
    fun u p r => by simp [access_service, httpCall, mkClient], ?_⟩
  intro u p m r resp s hs hsaml hne
  have hcat : (mkClient u p).url ++ (mkClient u p).saml_url
      = "https://acorn.utoronto.ca/spACS".toList := rfl
  unfold complete_saml
  simp only [httpCall, hs, hsaml]
  rw [if_neg (by simp [hne])]
  cases h2 : r.script (r.nextIdx + 1) with
  | error e => simp [h2, logPush, hcat]
  | ok resp2 =>
    simp only [h2]
    split <;> simp [logPush, hcat]

theorem C10_service_defaults_witness :
    (complete_saml (mkClient [] []) "Duo Push".toList (runOf exitScript)).1.trace
      = [⟨.duoExit, duoUrl (mkClient [] []) "oidc/exit".toList⟩,
         ⟨.samlPost, "https://acorn.utoronto.ca/spACS".toList⟩] := by
  have h := C10_service_defaults.2.2.2 [] [] "Duo Push".toList (runOf exitScript)
    samlResp "SAML123==".toList rfl rfl (by decide)
  simpa [runOf] using h

/-! ## Flow-level helper lemmas for the passcode guard -/

/-- The `_duo_auth` validation guard: method `Passcode` with a falsy passcode
returns `False` immediately, before any request. -/
theorem duo_auth_guard (c : St) (passcode : Option Str) (d : Str)
    (clock : List ℚ) (r : Run) (hp : passcodeFalsy passcode = true) :
    duo_auth c "Passcode".toList passcode d clock r
      = (logPush .passcodeRequired r, .ok (false, c)) := by
  unfold duo_auth
  rw [if_pos ⟨rfl, hp⟩]

/-- With a falsy passcode, the whole chain's trace is the initial login's
trace, and the chain can never report overall success. -/
theorem authE_passcode_falsy (c : St) (r : Run) (clock : List ℚ) (d : Str)
    (passcode : Option Str) (hp : passcodeFalsy passcode = true) :
    (authenticateE c "Passcode".toList passcode d clock r).1.trace
        = (initial_login c r).1.trace ∧
    ∀ st, (authenticateE c "Passcode".toList passcode d clock r).2
        ≠ .ok (true, st) := by
  unfold authenticateE
  cases hres : (initial_login c r).2 with
  | error e => simp [hres]
  | ok bc =>
    obtain ⟨b, c1⟩ := bc
    cases b with
    | false => simp [hres]
    | true =>
      simp only [hres]
      rw [duo_auth_guard c1 passcode d clock (initial_login c r).1 hp]
      simp [logPush]

/-- An empty-string passcode and a missing passcode drive the chain through
the same guard, with identical results. -/
theorem authE_passcode_empty (c : St) (r : Run) (clock : List ℚ) (d : Str) :
    authenticateE c "Passcode".toList (some []) d clock r
      = authenticateE c "Passcode".toList none d clock r := by
  unfold authenticateE
  cases hres : (initial_login c r).2 with
  | error e => simp [hres]
  | ok bc =>
    obtain ⟨b, c1⟩ := bc
    cases b with
    | false => simp [hres]
    | true =>
      simp only [hres]
      rw [duo_auth_guard c1 (some []) d clock (initial_login c r).1 rfl,
        duo_auth_guard c1 none d clock (initial_login c r).1 rfl]

theorem auth_passcode_falsy (c : St) (r : Run) (clock : List ℚ) (d : Str)
    (passcode : Option Str) (hp : passcodeFalsy passcode = true) :
    (authenticate c "Passcode".toList passcode d clock r).1 = false ∧
    duoCalls (authenticate c "Passcode".toList passcode d clock r).2.trace
      = duoCalls r.trace := by
  obtain ⟨htrace, hne⟩ := authE_passcode_falsy c r clock d passcode hp
  unfold authenticate
  cases hres : (authenticateE c "Passcode".toList passcode d clock r).2 with
  | error e =>
    simp only [hres]
    refine ⟨by trivial, ?_⟩
    show duoCalls
      (logPush (.authFailedExc e)
        (authenticateE c "Passcode".toList passcode d clock r).1).trace
      = duoCalls r.trace
    rw [show (logPush (.authFailedExc e)
        (authenticateE c "Passcode".toList passcode d clock r).1).trace
        = (authenticateE c "Passcode".toList passcode d clock r).1.trace from rfl]
    rw [htrace]
    exact initial_login_duoCalls c r
  | ok bst =>
    obtain ⟨b, st⟩ := bst
    cases b with
    | false =>
      simp only [hres]
      refine ⟨by trivial, ?_⟩
      rw [htrace]
      exact initial_login_duoCalls c r
    | true => exact absurd hres (hne st)

/-- C1: `authenticate` always returns a boolean and never propagates an
exception: whenever the underlying chain raises anywhere (network call, JSON
decoding or missing-key access included, all of which surface as the chain's
`.error`), the top level converts it into a `False` result and prints the
diagnostic `Authentication failed: …`; whenever the chain completes, its
boolean is returned as is.  Together the two cases are exhaustive. -/
theorem C1_catch_all (c : St) (m : Str) (p : Option Str) (d : Str)
    (clock : List ℚ) (r : Run) :
    (∀ e, (authenticateE c m p d clock r).2 = .error e →
      authenticate c m p d clock r
        = (false, logPush (.authFailedExc e) (authenticateE c m p d clock r).1)) ∧
    (∀ b st, (authenticateE c m p d clock r).2 = .ok (b, st) →
      authenticate c m p d clock r = (b, (authenticateE c m p d clock r).1)) := by
  constructor
  · intro e he
    unfold authenticate
    simp only [he]
  · intro b st hb
    unfold authenticate
    simp only [hb]

theorem C1_catch_all_witness :
    authenticate (mkClient [] []) "Duo Push".toList none "phone1".toList []
        (runOf loginOkScript)
      = (false, logPush (.authFailedExc .connErr)
          (authenticateE (mkClient [] []) "Duo Push".toList none "phone1".toList []
            (runOf loginOkScript)).1) :=
  (C1_catch_all (mkClient [] []) "Duo Push".toList none "phone1".toList []
    (runOf loginOkScript)).1 .connErr (by with_unfolding_all rfl)

/-- C8: when the first response of the initial login step (the entry GET,
whose final response comes from the identity provider after redirects) has a
non-200 status, `authenticate` returns `False` and the transport has seen
exactly that one request: in particular no provider-transport operation
(prompt, status, exit) is ever invoked in that run. -/
theorem C8_initial_non200 (c : St) (r : Run) (m : Str) (p : Option Str)
    (d : Str) (clock : List ℚ) (resp : HttpResp)
    (hs : r.script r.nextIdx = .ok resp) (h200 : resp.status_code ≠ 200)
    (htr : r.trace = []) :
    (authenticate c m p d clock r).1 = false ∧
    (authenticate c m p d clock r).2.trace = [⟨.entryGet, c.url⟩] ∧
    duoCalls (authenticate c m p d clock r).2.trace = 0 := by
  unfold authenticate authenticateE initial_login
  simp only [httpCall, hs]
  rw [if_pos h200]
  simp [logPush, htr, duoCalls, isDuoReq, List.countP_cons]

theorem C8_initial_non200_witness :
    (authenticate (mkClient [] []) "Duo Push".toList none "phone1".toList []
        (runOf http500Script)).1 = false ∧
    (authenticate (mkClient [] []) "Duo Push".toList none "phone1".toList []
        (runOf http500Script)).2.trace
      = [⟨.entryGet, "https://acorn.utoronto.ca/".toList⟩] ∧
    duoCalls (authenticate (mkClient [] []) "Duo Push".toList none "phone1".toList []
        (runOf http500Script)).2.trace = 0 :=
  C8_initial_non200 (mkClient [] []) (runOf http500Script) "Duo Push".toList none
    "phone1".toList [] resp500 rfl (by decide) rfl

/-- C5 (amended): calling `authenticate` with method `Passcode` and a falsy
passcode always yields `False`, and the validation stops the flow before any
provider-transport (challenge) request: the run adds no prompt, status or
exit request.  The initial-login HTTP requests do still occur first — the
validation sits in `_duo_auth`, after `_initial_login`. -/
theorem C5_passcode_validation (c : St) (r : Run) (clock : List ℚ)
    (device : Str) (passcode : Option Str)
    (hp : passcodeFalsy passcode = true) :
    (authenticate c "Passcode".toList passcode device clock r).1 = false ∧
    duoCalls (authenticate c "Passcode".toList passcode device clock r).2.trace
      = duoCalls r.trace :=
  auth_passcode_falsy c r clock device passcode hp

theorem C5_passcode_validation_witness :
    (authenticate (mkClient [] []) "Passcode".toList none "phone1".toList []
        (runOf loginOkScript)).1 = false ∧
    duoCalls (authenticate (mkClient [] []) "Passcode".toList none "phone1".toList []
        (runOf loginOkScript)).2.trace = duoCalls (runOf loginOkScript).trace :=
  C5_passcode_validation (mkClient [] []) (runOf loginOkScript) [] "phone1".toList
    none rfl

/-- C5 (counterexample): with a transport on which the initial login
succeeds, calling `authenticate` with method `Passcode` and no passcode does
return `False`, but three HTTP requests (entry GET, credentials POST,
frame-initialization POST) are observed on the transport — not zero as the
claim states. -/
theorem C5_counterexample :
    (authenticate (mkClient [] []) "Passcode".toList none "phone1".toList []
        (runOf loginOkScript)).1 = false ∧
    (authenticate (mkClient [] []) "Passcode".toList none "phone1".toList []
        (runOf loginOkScript)).2.trace
      = [⟨.entryGet, "https://acorn.utoronto.ca/".toList⟩,
         ⟨.credsPost, "https://idpz.utorauth.utoronto.ca/idp/login".toList⟩,
         ⟨.frameInitPost, credsOkResp.url⟩] ∧
    (authenticate (mkClient [] []) "Passcode".toList none "phone1".toList []
        (runOf loginOkScript)).2.trace.length = 3 := by
  refine ⟨?_, ?_, ?_⟩
  · with_unfolding_all rfl
  · with_unfolding_all rfl
  · with_unfolding_all rfl

/-- C9: an empty-string passcode is rejected exactly like a missing one
(Python's `not passcode` is true for both): the two calls produce identical
results on every transport and clock, the attempt fails, and no challenge is
ever submitted to the provider transport. -/
theorem C9_empty_passcode :
    (∀ (c : St) (r : Run) (clock : List ℚ) (device : Str),
      authenticate c "Passcode".toList (some []) device clock r
        = authenticate c "Passcode".toList none device clock r) ∧
    (∀ (c : St) (r : Run) (clock : List ℚ) (device : Str),
      (authenticate c "Passcode".toList (some []) device clock r).1 = false ∧
      duoCalls (authenticate c "Passcode".toList (some []) device clock r).2.trace
        = duoCalls r.trace) := by
  constructor
  · intro c r clock d
    unfold authenticate
    rw [authE_passcode_empty c r clock d]
  · intro c r clock d
    exact auth_passcode_falsy c r clock d (some []) rfl

/-- C6 (amended): after a successful entry GET and token extraction, on the
credentials response's redirect URL the orchestrator captures sid and
provider host as follows.  (1) When the first occurrence of the substring
`sid=` in the URL is the sid parameter itself (nonempty, `&`-terminated
value) and the `xyz.duosecurity.com`-shaped host is embedded with an
`https://` prefix and followed by `/` (no earlier `https://` match), the
orchestrator captures exactly that value and that host.  (2) When the sid
scan succeeds but no `https://…duosecurity.com` match exists anywhere, the
provider host falls back to the fixed `api-832cdf07.duosecurity.com`.
(3) When the URL has no nonempty `sid=` capture at all, the login step fails
with the missing-session-id diagnostic and the client state unchanged. -/
theorem C6_sid_host (c : St) (r : Run) (resp resp2 : HttpResp) (cs act : Str)
    (hscript0 : r.script r.nextIdx = .ok resp) (h200 : resp.status_code = 200)
    (hcsrf : extract_csrf_and_action resp.doc = .ok (some (cs, act)))
    (hscript1 : r.script (r.nextIdx + 1) = .ok resp2) :
    (∀ (preS V postS preH x restH : Str),
      resp2.url = preS ++ sidPat ++ V ++ '&' :: postS →
      NoMatchBefore sidPat resp2.url preS.length →
      V ≠ [] → (∀ ch ∈ V, ch ≠ '&') →
      resp2.url = preH ++ httpsPat ++ x ++ duoSuffix ++ '/' :: restH →
      NoMatchBefore httpsPat resp2.url preH.length →
      x ≠ [] → (∀ ch ∈ x, ch ≠ '/') →
      ∀ b c', (initial_login c r).2 = .ok (b, c') →
        c'.sid = some V ∧ c'.duo_host = some (x ++ duoSuffix)) ∧
    (∀ sv : Str,
      sidCapture resp2.url = some sv → duoHostSearch resp2.url = none →
      ∀ b c', (initial_login c r).2 = .ok (b, c') →
        c'.sid = some sv ∧ c'.duo_host = some fallbackHost) ∧
    (sidCapture resp2.url = none →
      (initial_login c r).2 = .ok (false, c) ∧
      (initial_login c r).1.log.getLast? = some .missingSid) := by
  refine ⟨?_, ?_, ?_⟩
  · intro preS V postS preH x restH hurlS hnmS hV hamp hurlH hnmH hx hsl b c' hres
    have hsid : sidCapture resp2.url = some V := by
      rw [hurlS]
      exact sidCapture_extract preS V postS hV hamp (hurlS ▸ hnmS)
    have hhost : duoHostSearch resp2.url = some (x ++ duoSuffix) := by
      rw [hurlH]
      exact duoHostSearch_extract preH x restH hx hsl (hurlH ▸ hnmH)
    unfold initial_login at hres
    simp only [httpCall, hscript0] at hres
    rw [if_neg (by simp [h200])] at hres
    simp only [hcsrf, hscript1, hsid, hhost] at hres
    cases hdt : extract_duo_tokens resp2.doc with
    | error e =>
      rw [hdt] at hres
      exact Except.noConfusion hres
    | ok odt =>
      cases odt with
      | none =>
        rw [hdt] at hres
        simp only [Except.ok.injEq, Prod.mk.injEq] at hres
        obtain ⟨-, hc'⟩ := hres
        subst hc'
        exact ⟨rfl, by simp⟩
      | some tks =>
        obtain ⟨tx, xsrf, akey⟩ := tks
        rw [hdt] at hres
        cases hs2 : r.script (r.nextIdx + 1 + 1) with
        | error e =>
          rw [hs2] at hres
          exact Except.noConfusion hres
        | ok resp3 =>
          rw [hs2] at hres
          simp only [Except.ok.injEq, Prod.mk.injEq] at hres
          obtain ⟨-, hc'⟩ := hres
          subst hc'
          exact ⟨rfl, by simp⟩
  · intro sv hsid hhost b c' hres
    unfold initial_login at hres
    simp only [httpCall, hscript0] at hres
    rw [if_neg (by simp [h200])] at hres
    simp only [hcsrf, hscript1, hsid, hhost] at hres
    cases hdt : extract_duo_tokens resp2.doc with
    | error e =>
      rw [hdt] at hres
      exact Except.noConfusion hres
    | ok odt =>
      cases odt with
      | none =>
        rw [hdt] at hres
        simp only [Except.ok.injEq, Prod.mk.injEq] at hres
        obtain ⟨-, hc'⟩ := hres
        subst hc'
        exact ⟨rfl, by simp [fallbackHost]⟩
      | some tks =>
        obtain ⟨tx, xsrf, akey⟩ := tks
        rw [hdt] at hres
        cases hs2 : r.script (r.nextIdx + 1 + 1) with
        | error e =>
          rw [hs2] at hres
          exact Except.noConfusion hres
        | ok resp3 =>
          rw [hs2] at hres
          simp only [Except.ok.injEq, Prod.mk.injEq] at hres
          obtain ⟨-, hc'⟩ := hres
          subst hc'
          exact ⟨rfl, by simp [fallbackHost]⟩
  · intro hsid
    unfold initial_login
    simp only [httpCall, hscript0]
    rw [if_neg (by simp [h200])]
    simp only [hcsrf, hscript1, hsid]
    exact ⟨by trivial, by simp [logPush, List.getLast?_concat]⟩

theorem C6_sid_host_witness :
    (stAfterLoginOk.sid = some "SID1".toList ∧
      stAfterLoginOk.duo_host = some ("api-1".toList ++ duoSuffix)) ∧
    (stAfterNoHost.sid = some "S2".toList ∧
      stAfterNoHost.duo_host = some fallbackHost) ∧
    ((initial_login (mkClient [] []) (runOf noSidScript)).2
        = .ok (false, mkClient [] []) ∧
      (initial_login (mkClient [] []) (runOf noSidScript)).1.log.getLast?
        = some .missingSid) := by
  refine ⟨?_, ?_, ?_⟩
  · exact (C6_sid_host (mkClient [] []) (runOf loginOkScript) entryOkResp
      credsOkResp "TOK1".toList "/idp/login".toList rfl rfl rfl rfl).1
      "https://api-1.duosecurity.com/frame/v4/auth?".toList "SID1".toList
      "tx=T".toList [] "api-1".toList "frame/v4/auth?sid=SID1&tx=T".toList
      (by decide) (by decide) (by decide) (by decide) (by decide) (by decide)
      (by decide) (by decide) true _ (by with_unfolding_all rfl)
  · exact (C6_sid_host (mkClient [] []) (runOf noHostScript) entryOkResp
      credsNoHostResp "TOK1".toList "/idp/login".toList rfl rfl rfl rfl).2.1
      "S2".toList (by decide) (by decide) true _ (by with_unfolding_all rfl)
  · exact (C6_sid_host (mkClient [] []) (runOf noSidScript) entryOkResp
      credsNoSidResp "TOK1".toList "/idp/login".toList rfl rfl rfl rfl).2.2
      (by decide)

/-- C6 (counterexample): the redirect URL
`https://xyz.duosecurity.com/frame?ssid=Q&sid=ABC123` contains the query
parameter `sid=ABC123` and embeds the host `xyz.duosecurity.com`, yet the
orchestrator captures sid `"Q"`: the `sid=([^&]+)` scan hits the tail of the
earlier `ssid=Q` parameter first, so the claim's "captures sid = ABC123 for
every such URL" fails here. -/
theorem C6_counterexample :
    ((initial_login (mkClient [] []) (runOf ssidScript)).2.map
        (fun p => p.2.sid))
      = .ok (some "Q".toList) ∧
    some "Q".toList ≠ some "ABC123".toList := by
  constructor
  · with_unfolding_all rfl
  · decide

end AcornSnipe
